import Mathlib

/-!
Shallow embedding of `src/auth.py` (FastAPI OAuth2/JWT auth module of the
MS1 user service) and proofs of the testable properties of its spec.

Modelling conventions:
* Python dicts with string keys become insertion-ordered association lists
  (`Dict`); `d[k] = v` replaces in place or appends (`dictInsert`).
* Instants are `Int` seconds since the epoch; `datetime.utcnow()` becomes an
  explicit `now` parameter, `timedelta` an `Int` number of seconds.
* The `python-jose` library calls `jwt.encode` / `jwt.decode` are embedded at
  the level of their observable behaviour: a token carries the header
  algorithm, the decoded payload and a signature string; the HMAC is an
  abstract injective-enough pure function `macSign`; `jwt.decode` rejects on
  algorithm mismatch or signature mismatch, and checks `exp < now` exactly as
  jose's `_validate_exp` does (expired iff `exp` is strictly in the past).
* The two route handlers take the provider exchange results as oracle
  parameters and additionally return the list of provider SDK calls they
  performed (`Action`), so that "no network call attempted" and "no token
  minted" are statable.
-/

namespace MS1Auth

/-- JSON-style values stored in a claims mapping. -/
inductive ClaimValue where
  | str : String → ClaimValue
  | int : Int → ClaimValue
  | null : ClaimValue
deriving DecidableEq, Repr

/-- A Python dict with string keys, as an insertion-ordered association list. -/
abbrev Dict := List (String × ClaimValue)

/-- `d[k] = v` / `d.update({k: v})`: replace in place if present, else append. -/
def dictInsert : Dict → String → ClaimValue → Dict
  | [], k, v => [(k, v)]
  | (k0, v0) :: rest, k, v =>
      if k0 = k then (k, v) :: rest else (k0, v0) :: dictInsert rest k v

/-- `d.get(k)`: the value at key `k`, if present. -/
def dictGet? : Dict → String → Option ClaimValue
  | [], _ => none
  | (k0, v0) :: rest, k => if k0 = k then some v0 else dictGet? rest k

/-- Rendering of a claim value used by the serialized payload. -/
def cvRender : ClaimValue → String
  | .str s => "s:" ++ s
  | .int i => "i:" ++ toString i
  | .null => "n"

/-- Serialization of a claims mapping (the base64url payload segment). -/
def dictRender : Dict → String
  | [] => ""
  | (k, v) :: rest => k ++ "=" ++ cvRender v ++ ";" ++ dictRender rest

/-- Model of the HMAC signature over the header algorithm and payload. -/
def macSign (secret alg : String) (payload : Dict) : String :=
  "MAC(" ++ secret ++ "|" ++ alg ++ "|" ++ dictRender payload ++ ")"

/-- A JWT in decoded wire form: header algorithm, payload, signature segment. -/
structure SessionToken where
  alg : String
  payload : Dict
  sig : String
deriving DecidableEq, Repr

/-- `JWT_SECRET_KEY`, `JWT_ALGORITHM`, `JWT_EXPIRE_MINUTES`. -/
structure JwtConfig where
  secret : String
  algorithm : String
  expireMinutes : Nat
deriving DecidableEq, Repr

/-- FastAPI `HTTPException(status_code, detail)`. -/
structure HTTPException where
  status_code : Nat
  detail : String
deriving DecidableEq, Repr

/-- `jose.JWTError` and its subclasses raised by `jwt.decode`. -/
inductive JWTError where
  | invalidSignature
  | algorithmMismatch
  | expired
  | claimsError
deriving DecidableEq, Repr

/-- `jose.jwt.encode(claims, key, algorithm)`. -/
def joseEncode (claims : Dict) (secret alg : String) : SessionToken :=
  { alg := alg, payload := claims, sig := macSign secret alg claims }

/-- `jose.jwt.decode(token, key, algorithms=[alg])` at instant `now`: verifies
the header algorithm and the signature, then validates `exp` exactly as jose's
`_validate_exp` does — absent `exp` passes, non-integer `exp` raises
`JWTClaimsError`, and the token is expired iff `exp < now`. -/
def joseDecode (token : SessionToken) (secret alg : String) (now : Int) :
    Except JWTError Dict :=
  if token.alg ≠ alg then .error .algorithmMismatch
  else if token.sig ≠ macSign secret token.alg token.payload then
    .error .invalidSignature
  else
    match dictGet? token.payload "exp" with
    | none => .ok token.payload
    | some (.int e) => if e < now then .error .expired else .ok token.payload
    | some _ => .error .claimsError

/-- `expires_delta or timedelta(minutes=default)`: Python truthiness makes both
`None` and the zero timedelta select the default. Result in seconds. -/
def timedeltaOr (expires_delta : Option Int) (defaultMinutes : Nat) : Int :=
  match expires_delta with
  | none => (defaultMinutes : Int) * 60
  | some d => if d = 0 then (defaultMinutes : Int) * 60 else d

/-- `create_access_token(data, expires_delta=None)` at issuance instant `now`. -/
def create_access_token (cfg : JwtConfig) (now : Int) (data : Dict)
    (expires_delta : Option Int) : SessionToken :=
  let to_encode := data
  let expire := now + timedeltaOr expires_delta cfg.expireMinutes
  let to_encode := dictInsert to_encode "exp" (.int expire)
  joseEncode to_encode cfg.secret cfg.algorithm

/-- `decode_access_token(token)` at instant `now`: any `JWTError` becomes
`HTTPException(401, "Invalid or expired JWT token")`. -/
def decode_access_token (cfg : JwtConfig) (now : Int) (token : SessionToken) :
    Except HTTPException Dict :=
  match joseDecode token cfg.secret cfg.algorithm now with
  | .ok payload => .ok payload
  | .error _ => .error ⟨401, "Invalid or expired JWT token"⟩

/-- `fastapi.security.HTTPAuthorizationCredentials`. -/
structure HTTPAuthorizationCredentials where
  scheme : String
  credentials : SessionToken
deriving DecidableEq, Repr

/-- `require_jwt(credentials)`: `HTTPBearer(auto_error=False)` yields `None`
when no bearer credential is present. -/
def require_jwt (cfg : JwtConfig) (now : Int)
    (credentials : Option HTTPAuthorizationCredentials) :
    Except HTTPException Dict :=
  match credentials with
  | none => .error ⟨401, "Missing Authorization: Bearer token"⟩
  | some c => decode_access_token cfg now c.credentials

/-- `GOOGLE_CLIENT_ID`, `GOOGLE_CLIENT_SECRET`, `GOOGLE_REDIRECT_URI`
(`os.environ.get` yields `None` when unset). -/
structure GoogleConfig where
  clientId : Option String
  clientSecret : Option String
  redirectUri : Option String
deriving DecidableEq, Repr

/-- Python truthiness of an `os.environ.get` result: `None` and `""` are falsy. -/
def envTruthy : Option String → Bool
  | none => false
  | some s => !(s == "")

/-- `GOOGLE_CLIENT_ID and GOOGLE_CLIENT_SECRET` both truthy. -/
def googleConfigured (g : GoogleConfig) : Bool :=
  envTruthy g.clientId && envTruthy g.clientSecret

/-- Provider SDK calls the handlers may perform. -/
inductive Action where
  | authorizeRedirect
  | authorizeAccessToken
  | parseIdToken
  | mintToken
deriving DecidableEq, Repr

/-- The 500 raised by both handlers when the Google client is unconfigured. -/
def notConfiguredError : HTTPException :=
  ⟨500, "OAuth2 Google client is not configured. Set GOOGLE_CLIENT_ID and GOOGLE_CLIENT_SECRET."⟩

/-- `GET /auth/login`. `urlForCallback` models `request.url_for("auth_callback")`;
the result of `authorize_redirect` is represented by the redirect URI passed to
it. The first component records the provider SDK calls performed. -/
def auth_login (g : GoogleConfig) (urlForCallback : String) :
    List Action × Except HTTPException String :=
  if !googleConfigured g then
    ([], .error notConfiguredError)
  else
    let redirect_uri :=
      match g.redirectUri with
      | some s => if s == "" then urlForCallback else s
      | none => urlForCallback
    ([.authorizeRedirect], .ok redirect_uri)

/-- Results of the provider exchange, supplied by the environment:
`tokenUserinfo` is `token.get("userinfo") or {}` (absent and falsy collapse to
the empty dict), `parsedUserinfo` the result of `parse_id_token`. -/
structure ProviderOracle where
  tokenUserinfo : Dict
  parsedUserinfo : Dict
deriving DecidableEq, Repr

/-- The `provider_user` object of the callback response body. -/
structure ProviderUser where
  sub : ClaimValue
  email : ClaimValue
deriving DecidableEq, Repr

/-- The callback success response body. -/
structure CallbackResponse where
  access_token : SessionToken
  token_type : String
  expires_in_minutes : Nat
  provider_user : ProviderUser
deriving DecidableEq, Repr

/-- The userinfo the callback ends up using: the token-embedded one, or the
`parse_id_token` fallback when that is empty. -/
def effectiveUserinfo (o : ProviderOracle) : Dict :=
  if o.tokenUserinfo.isEmpty then o.parsedUserinfo else o.tokenUserinfo

/-- `GET /auth/callback` at instant `now`. The first component records the
provider SDK calls performed, plus `mintToken` when `create_access_token` is
reached. -/
def auth_callback (g : GoogleConfig) (cfg : JwtConfig) (now : Int)
    (o : ProviderOracle) :
    List Action × Except HTTPException CallbackResponse :=
  if !googleConfigured g then
    ([], .error notConfiguredError)
  else
    let acts : List Action :=
      if o.tokenUserinfo.isEmpty then
        [.authorizeAccessToken, .parseIdToken]
      else
        [.authorizeAccessToken]
    let userinfo := effectiveUserinfo o
    if userinfo.isEmpty || (dictGet? userinfo "sub").isNone then
      (acts, .error ⟨400, "Failed to retrieve user information from Google"⟩)
    else
      let subject := (dictGet? userinfo "sub").getD .null
      let email := (dictGet? userinfo "email").getD .null
      let claims : Dict :=
        [("sub", subject), ("email", email),
         ("provider", .str "google"), ("iss", .str "ms1-user-service")]
      let access_token := create_access_token cfg now claims none
      (acts ++ [.mintToken],
       .ok { access_token := access_token
             token_type := "bearer"
             expires_in_minutes := cfg.expireMinutes
             provider_user := { sub := subject, email := email } })

/-- The `sub` claim embedded in the minted token of a callback result, if any. -/
def callbackSubClaim :
    List Action × Except HTTPException CallbackResponse → Option ClaimValue
  | (_, .ok r) => dictGet? r.access_token.payload "sub"
  | (_, .error _) => none

/-- Heap of Python dict objects, for stating mutation properties. -/
abbrev Store := List Dict

/-- Dereference a dict object. -/
def storeRead (st : Store) (r : Nat) : Dict := st.getD r []

/-- `d.copy()`: allocate a fresh dict holding the same entries. -/
def storeCopy (st : Store) (r : Nat) : Store × Nat :=
  (st ++ [storeRead st r], st.length)

/-- `d.update({k: v})`: mutate the dict object at `r` in place. -/
def storeUpdate (st : Store) (r : Nat) (k : String) (v : ClaimValue) : Store :=
  st.set r (dictInsert (storeRead st r) k v)

/-- `create_access_token` with the dict operations made explicit on a heap:
`to_encode = data.copy()`, then `to_encode.update({"exp": expire})`, then
`jwt.encode(to_encode, ...)`. Returns the final heap and the token. -/
def create_access_token_heap (cfg : JwtConfig) (now : Int) (st : Store)
    (dataRef : Nat) (expires_delta : Option Int) : Store × SessionToken :=
  let copied := storeCopy st dataRef
  let st1 := copied.1
  let toRef := copied.2
  let expire := now + timedeltaOr expires_delta cfg.expireMinutes
  let st2 := storeUpdate st1 toRef "exp" (.int expire)
  (st2, joseEncode (storeRead st2 toRef) cfg.secret cfg.algorithm)

/-- Mutate one character of a string (the signature segment). -/
def setChar (s : String) (i : Nat) (c : Char) : String := ⟨s.data.set i c⟩

/-! ### Helper lemmas on the dict model -/

theorem dictGet?_insert_self (d : Dict) (k : String) (v : ClaimValue) :
    dictGet? (dictInsert d k v) k = some v := by
  induction d with
  | nil => simp [dictInsert, dictGet?]
  | cons hd tl ih =>
      obtain ⟨k0, v0⟩ := hd
      by_cases h : k0 = k
      · simp [dictInsert, dictGet?, h]
      · simp [dictInsert, dictGet?, h, ih]

theorem dictGet?_insert_ne (d : Dict) (k k2 : String) (v : ClaimValue)
    (h : k2 ≠ k) : dictGet? (dictInsert d k v) k2 = dictGet? d k2 := by
  induction d with
  | nil => simp [dictInsert, dictGet?, Ne.symm h]
  | cons hd tl ih =>
      obtain ⟨k0, v0⟩ := hd
      by_cases h0 : k0 = k
      · subst h0
        simp [dictInsert, dictGet?, Ne.symm h]
      · by_cases h2 : k0 = k2
        · simp [dictInsert, dictGet?, h0, h2, h]
        · simp [dictInsert, dictGet?, h0, h2, ih]

theorem dictGet?_ne_nil (d : Dict) (k : String)
    (h : (dictGet? d k).isSome) : d ≠ [] := by
  intro hnil
  subst hnil
  simp [dictGet?] at h

/-! ### Behaviour of decode after create -/

/-- The token minted by `create_access_token`: payload is the input dict with
`exp` set to issuance instant plus ttl, signed with the configured secret. -/
theorem create_access_token_eq (cfg : JwtConfig) (now : Int) (data : Dict)
    (expires_delta : Option Int) :
    create_access_token cfg now data expires_delta =
      joseEncode (dictInsert data "exp"
        (.int (now + timedeltaOr expires_delta cfg.expireMinutes)))
        cfg.secret cfg.algorithm := rfl

/-- Decoding a freshly minted token at an instant no later than its expiry
returns the payload. -/
theorem decode_create_ok (cfg : JwtConfig) (data : Dict) (ti tv : Int)
    (expires_delta : Option Int)
    (h : tv ≤ ti + timedeltaOr expires_delta cfg.expireMinutes) :
    decode_access_token cfg tv (create_access_token cfg ti data expires_delta) =
      .ok (dictInsert data "exp"
        (.int (ti + timedeltaOr expires_delta cfg.expireMinutes))) := by
  unfold decode_access_token joseDecode
  simp [create_access_token_eq, joseEncode, dictGet?_insert_self, not_lt.mpr h]

/-- Decoding a minted token strictly after its expiry yields the 401. -/
theorem decode_create_expired (cfg : JwtConfig) (data : Dict) (ti tv : Int)
    (expires_delta : Option Int)
    (h : ti + timedeltaOr expires_delta cfg.expireMinutes < tv) :
    decode_access_token cfg tv (create_access_token cfg ti data expires_delta) =
      .error ⟨401, "Invalid or expired JWT token"⟩ := by
  unfold decode_access_token joseDecode
  simp [create_access_token_eq, joseEncode, dictGet?_insert_self, h]

/-! ### Concrete instances used by witnesses and counterexamples -/

/-- A concrete JWT configuration: default algorithm and 60-minute ttl. -/
def cfgEx : JwtConfig := ⟨"dev-secret-change-me", "HS256", 60⟩

/-- A concrete claims mapping with `sub` present. -/
def dataEx : Dict := [("sub", .str "user-1"), ("email", .str "a@b.com")]

/-- A concrete configured Google client. -/
def gEx : GoogleConfig := ⟨some "client-id", some "client-secret", none⟩

/-- A concrete unconfigured Google client (unset id, empty secret). -/
def gBad : GoogleConfig := ⟨none, some "", some "https://cb"⟩

/-! ### Claim theorems -/

/-- C1: for every claims mapping containing `sub`, issuing with
`create_access_token` (default ttl) and validating with `decode_access_token`
at any instant up to the expiry returns a mapping whose `sub`, `email`,
`provider` and `iss` entries are exactly those of the input, and whose `exp`
is the issuance instant plus the configured ttl — regardless of any `exp`
the caller supplied in the input. -/
theorem issue_validate_roundtrip (cfg : JwtConfig) (data : Dict) (ti tv : Int)
    (hsub : (dictGet? data "sub").isSome)
    (hvalid : tv ≤ ti + (cfg.expireMinutes : Int) * 60) :
    decode_access_token cfg tv (create_access_token cfg ti data none) =
      .ok (dictInsert data "exp" (.int (ti + (cfg.expireMinutes : Int) * 60))) ∧
    dictGet? (dictInsert data "exp" (.int (ti + (cfg.expireMinutes : Int) * 60)))
        "sub" = dictGet? data "sub" ∧
    dictGet? (dictInsert data "exp" (.int (ti + (cfg.expireMinutes : Int) * 60)))
        "email" = dictGet? data "email" ∧
    dictGet? (dictInsert data "exp" (.int (ti + (cfg.expireMinutes : Int) * 60)))
        "provider" = dictGet? data "provider" ∧
    dictGet? (dictInsert data "exp" (.int (ti + (cfg.expireMinutes : Int) * 60)))
        "iss" = dictGet? data "iss" ∧
    dictGet? (dictInsert data "exp" (.int (ti + (cfg.expireMinutes : Int) * 60)))
        "exp" = some (.int (ti + (cfg.expireMinutes : Int) * 60)) := by
  refine ⟨?_, ?_, ?_, ?_, ?_, ?_⟩
  · have h : tv ≤ ti + timedeltaOr none cfg.expireMinutes := hvalid
    exact decode_create_ok cfg data ti tv none h
  · exact dictGet?_insert_ne data "exp" "sub" _ (by decide)
  · exact dictGet?_insert_ne data "exp" "email" _ (by decide)
  · exact dictGet?_insert_ne data "exp" "provider" _ (by decide)
  · exact dictGet?_insert_ne data "exp" "iss" _ (by decide)
  · exact dictGet?_insert_self data "exp" _

/-- Witness for C1 at a concrete configuration, claims mapping (with a
caller-supplied `exp` that gets overwritten) and instants. -/
theorem issue_validate_roundtrip_witness :
    ((dictGet? (("exp", ClaimValue.int 5) :: dataEx) "sub").isSome ∧
      (10 : Int) ≤ 0 + (cfgEx.expireMinutes : Int) * 60) ∧
    decode_access_token cfgEx 10
        (create_access_token cfgEx 0 (("exp", ClaimValue.int 5) :: dataEx) none) =
      .ok (dictInsert (("exp", ClaimValue.int 5) :: dataEx) "exp"
        (.int (0 + (cfgEx.expireMinutes : Int) * 60))) :=
  ⟨⟨by decide, by decide⟩,
   (issue_validate_roundtrip cfgEx (("exp", ClaimValue.int 5) :: dataEx) 0 10
      (by decide) (by decide)).1⟩

/-- C3: `require_jwt` with no bearer credential fails with 401
"Missing Authorization: Bearer token" — a message distinct from the
invalid-token one — and with a credential present it returns exactly
`decode_access_token` on the credential's token, so any invalid-token
401 is propagated unchanged. -/
theorem require_jwt_error_modes :
    (∀ (cfg : JwtConfig) (now : Int),
      require_jwt cfg now none =
        .error ⟨401, "Missing Authorization: Bearer token"⟩) ∧
    "Missing Authorization: Bearer token" ≠ "Invalid or expired JWT token" ∧
    (∀ (cfg : JwtConfig) (now : Int) (c : HTTPAuthorizationCredentials),
      require_jwt cfg now (some c) = decode_access_token cfg now c.credentials) :=
  ⟨fun _ _ => rfl, by decide, fun _ _ _ => rfl⟩

/-- C7: expiry uses instant-level precision. A token minted at `ti` with any
`expires_delta` validates successfully at exactly its `exp` instant, and fails
with the 401 invalid-token error at every instant strictly after `exp`. -/
theorem expiry_boundary (cfg : JwtConfig) (data : Dict) (ti tv : Int)
    (expires_delta : Option Int) :
    decode_access_token cfg (ti + timedeltaOr expires_delta cfg.expireMinutes)
        (create_access_token cfg ti data expires_delta) =
      .ok (dictInsert data "exp"
        (.int (ti + timedeltaOr expires_delta cfg.expireMinutes))) ∧
    (ti + timedeltaOr expires_delta cfg.expireMinutes < tv →
      decode_access_token cfg tv (create_access_token cfg ti data expires_delta) =
        .error ⟨401, "Invalid or expired JWT token"⟩) :=
  ⟨decode_create_ok cfg data ti _ expires_delta (le_refl _),
   fun h => decode_create_expired cfg data ti tv expires_delta h⟩

/-- Witness for C7: a 60-minute token minted at instant 0 validates at 3600
and is rejected at 3601. -/
theorem expiry_boundary_witness :
    decode_access_token cfgEx ((0 : Int) + timedeltaOr none cfgEx.expireMinutes)
        (create_access_token cfgEx 0 dataEx none) =
      .ok (dictInsert dataEx "exp"
        (.int ((0 : Int) + timedeltaOr none cfgEx.expireMinutes))) ∧
    decode_access_token cfgEx 3601 (create_access_token cfgEx 0 dataEx none) =
      .error ⟨401, "Invalid or expired JWT token"⟩ :=
  ⟨(expiry_boundary cfgEx dataEx 0 3601 none).1,
   (expiry_boundary cfgEx dataEx 0 3601 none).2 (by decide)⟩

/-- C8 counterexample: a token issued with a zero time-to-live does NOT fail
immediately. `timedelta(0)` is falsy in Python, so
`expires_delta or timedelta(minutes=JWT_EXPIRE_MINUTES)` silently falls back
to the 60-minute default: validating at the issuance instant succeeds. -/
theorem zero_ttl_not_rejected :
    decode_access_token cfgEx 0 (create_access_token cfgEx 0 dataEx (some 0)) =
      .ok (dictInsert dataEx "exp" (.int 3600)) := by rfl

/-- C8 amended: a token issued with a strictly negative (already-past)
`expires_delta` fails with the 401 invalid-token error when validated at or
after the issuance instant; a zero `expires_delta` instead falls back to the
configured default ttl, because the zero timedelta is falsy in Python. -/
theorem past_expiry_rejected (cfg : JwtConfig) (data : Dict) (ti tv d : Int)
    (hd : d < 0) (htv : ti ≤ tv) :
    decode_access_token cfg tv (create_access_token cfg ti data (some d)) =
      .error ⟨401, "Invalid or expired JWT token"⟩ := by
  have hde : timedeltaOr (some d) cfg.expireMinutes = d := by
    simp [timedeltaOr, ne_of_lt hd]
  exact decode_create_expired cfg data ti tv (some d)
    (by rw [hde]; omega)

/-- Witness for C8 amended: a token with `expires_delta = -1` issued at 0 is
rejected at 0. -/
theorem past_expiry_rejected_witness :
    ((-1 : Int) < 0 ∧ (0 : Int) ≤ 0) ∧
    decode_access_token cfgEx 0 (create_access_token cfgEx 0 dataEx (some (-1))) =
      .error ⟨401, "Invalid or expired JWT token"⟩ :=
  ⟨⟨by decide, by decide⟩,
   past_expiry_rejected cfgEx dataEx 0 0 (-1) (by decide) (by decide)⟩

/-- Changing a character of a string to a different character yields a
different string. -/
theorem setChar_ne (s : String) (i : Nat) (c ch : Char)
    (hget : s.data[i]? = some ch) (hc : c ≠ ch) : setChar s i c ≠ s := by
  intro h
  have hdata : s.data.set i c = s.data := congrArg String.data h
  have hlen : i < s.data.length := by
    by_contra hge
    rw [List.getElem?_eq_none (Nat.le_of_not_lt hge)] at hget
    exact Option.noConfusion hget
  have h1 : (s.data.set i c)[i]? = some c := List.getElem?_set_self hlen
  rw [hdata, hget] at h1
  exact hc (Option.some.inj h1).symm

/-- C2: mutating any single character of an issued token's signature segment
makes `decode_access_token` fail with the 401 invalid-token error, at every
validation instant, instead of returning claims. -/
theorem tampered_signature_rejected (cfg : JwtConfig) (data : Dict) (ti tv : Int)
    (expires_delta : Option Int) (i : Nat) (c ch : Char)
    (hget : (create_access_token cfg ti data expires_delta).sig.data[i]? = some ch)
    (hc : c ≠ ch) :
    decode_access_token cfg tv
      { create_access_token cfg ti data expires_delta with
          sig := setChar (create_access_token cfg ti data expires_delta).sig i c } =
      .error ⟨401, "Invalid or expired JWT token"⟩ := by
  have hne : setChar (create_access_token cfg ti data expires_delta).sig i c ≠
      (create_access_token cfg ti data expires_delta).sig :=
    setChar_ne _ i c ch hget hc
  rw [create_access_token_eq] at hne ⊢
  unfold decode_access_token joseDecode
  simp [joseEncode] at hne ⊢
  simp [hne]

/-- Witness for C2: flipping the first signature character of a concrete token
to a different character is rejected. -/
theorem tampered_signature_rejected_witness :
    ((create_access_token cfgEx 0 dataEx none).sig.data[0]? = some 'M' ∧
      ('X' : Char) ≠ 'M') ∧
    decode_access_token cfgEx 0
      { create_access_token cfgEx 0 dataEx none with
          sig := setChar (create_access_token cfgEx 0 dataEx none).sig 0 'X' } =
      .error ⟨401, "Invalid or expired JWT token"⟩ :=
  ⟨⟨by decide, by decide⟩,
   tampered_signature_rejected cfgEx dataEx 0 0 none 0 'X' 'M'
     (by decide) (by decide)⟩

/-- C4: when the Google client id or secret is unset or empty, both the login
and callback handlers fail with the documented 500 response and perform no
provider SDK call at all (empty action trace), for every oracle. -/
theorem unconfigured_fails_fast (g : GoogleConfig) (cfg : JwtConfig) (now : Int)
    (url : String) (o : ProviderOracle) (h : googleConfigured g = false) :
    auth_login g url =
      ([], .error ⟨500, "OAuth2 Google client is not configured. Set GOOGLE_CLIENT_ID and GOOGLE_CLIENT_SECRET."⟩) ∧
    auth_callback g cfg now o =
      ([], .error ⟨500, "OAuth2 Google client is not configured. Set GOOGLE_CLIENT_ID and GOOGLE_CLIENT_SECRET."⟩) := by
  unfold auth_login auth_callback
  rw [h]
  exact ⟨rfl, rfl⟩

/-- Witness for C4: an unconfigured client (unset id, empty secret). -/
theorem unconfigured_fails_fast_witness :
    googleConfigured gBad = false ∧
    auth_login gBad "https://svc/auth/callback" =
      ([], .error ⟨500, "OAuth2 Google client is not configured. Set GOOGLE_CLIENT_ID and GOOGLE_CLIENT_SECRET."⟩) :=
  ⟨by decide,
   (unconfigured_fails_fast gBad cfgEx 0 "https://svc/auth/callback"
      ⟨[], []⟩ (by decide)).1⟩

/-- A dict with a defined lookup is nonempty. -/
theorem dictGet?_isEmpty_false (d : Dict) (k : String)
    (h : (dictGet? d k).isSome) : d.isEmpty = false := by
  cases d with
  | nil => simp [dictGet?] at h
  | cons hd tl => rfl

/-- C5: whenever the provider exchange yields no usable subject identifier
(the effective userinfo has no `sub` key, in particular when it is empty),
the callback fails with the documented 400 response and `create_access_token`
is never reached (no `mintToken` in the action trace). -/
theorem no_sub_yields_400 (g : GoogleConfig) (cfg : JwtConfig) (now : Int)
    (o : ProviderOracle) (hconf : googleConfigured g = true)
    (hnosub : (dictGet? (effectiveUserinfo o) "sub").isNone) :
    (auth_callback g cfg now o).2 =
      .error ⟨400, "Failed to retrieve user information from Google"⟩ ∧
    Action.mintToken ∉ (auth_callback g cfg now o).1 := by
  unfold auth_callback
  rw [hconf]
  by_cases he : o.tokenUserinfo.isEmpty <;>
    simp [he, hnosub]

/-- Witness for C5: configured client, provider exchange yielding empty
userinfo with an empty fallback. -/
theorem no_sub_yields_400_witness :
    (googleConfigured gEx = true ∧
      (dictGet? (effectiveUserinfo ⟨[], []⟩) "sub").isNone) ∧
    ((auth_callback gEx cfgEx 0 ⟨[], []⟩).2 =
        .error ⟨400, "Failed to retrieve user information from Google"⟩ ∧
      Action.mintToken ∉ (auth_callback gEx cfgEx 0 ⟨[], []⟩).1) :=
  ⟨⟨by decide, by decide⟩,
   no_sub_yields_400 gEx cfgEx 0 ⟨[], []⟩ (by decide) (by decide)⟩

/-- C6 counterexample: the callback checks only that the `sub` KEY is present,
not that its value is non-empty. With a configured client and a provider
userinfo of `{"sub": ""}` the callback still mints a token, and the `sub`
placed in the claims is the empty string — refuting the claim that every
minted `sub` is a non-empty string. -/
theorem minted_sub_may_be_empty :
    Action.mintToken ∈ (auth_callback gEx cfgEx 0 ⟨[("sub", .str "")], []⟩).1 ∧
    callbackSubClaim (auth_callback gEx cfgEx 0 ⟨[("sub", .str "")], []⟩) =
      some (.str "") := by
  constructor
  · decide
  · rfl

/-- C6 amended: whenever the callback reaches `create_access_token` (a
`mintToken` action is recorded), the effective userinfo has a `sub` key, and
the `sub` claim embedded in the minted token equals that userinfo value
unchanged — but it is not checked to be non-empty or a string. -/
theorem minted_sub_present (g : GoogleConfig) (cfg : JwtConfig) (now : Int)
    (o : ProviderOracle)
    (h : Action.mintToken ∈ (auth_callback g cfg now o).1) :
    (dictGet? (effectiveUserinfo o) "sub").isSome ∧
    callbackSubClaim (auth_callback g cfg now o) =
      dictGet? (effectiveUserinfo o) "sub" := by
  unfold auth_callback at h ⊢
  by_cases hconf : googleConfigured g
  · rw [hconf] at h ⊢
    by_cases hsub : (dictGet? (effectiveUserinfo o) "sub").isNone
    · exfalso
      by_cases he : o.tokenUserinfo.isEmpty <;>
        simp [he, hsub] at h
    · have hs : (dictGet? (effectiveUserinfo o) "sub").isSome := by
        cases hx : dictGet? (effectiveUserinfo o) "sub" with
        | none => rw [hx] at hsub; simp at hsub
        | some v => rfl
      obtain ⟨v, hv⟩ := Option.isSome_iff_exists.mp hs
      refine ⟨hs, ?_⟩
      have hne : (effectiveUserinfo o).isEmpty = false :=
        dictGet?_isEmpty_false _ _ hs
      by_cases he : o.tokenUserinfo.isEmpty <;>
        simp [he, hne, hsub, callbackSubClaim, create_access_token_eq,
          joseEncode, hv, dictGet?_insert_ne _ "exp" "sub" _ (by decide),
          dictGet?]
  · simp [hconf] at h

/-- Witness for C6 amended: at the concrete minting run with userinfo
`{"sub": "user-1", "email": "a@b.com"}`. -/
theorem minted_sub_present_witness :
    Action.mintToken ∈ (auth_callback gEx cfgEx 0 ⟨dataEx, []⟩).1 ∧
    ((dictGet? (effectiveUserinfo ⟨dataEx, []⟩) "sub").isSome ∧
      callbackSubClaim (auth_callback gEx cfgEx 0 ⟨dataEx, []⟩) =
        dictGet? (effectiveUserinfo ⟨dataEx, []⟩) "sub") :=
  ⟨by decide, minted_sub_present gEx cfgEx 0 ⟨dataEx, []⟩ (by decide)⟩

/-- C9: a successful callback whose provider exchange returned subject `s` and
email `e` responds with `token_type = "bearer"`, `expires_in_minutes` equal to
the configured ttl, `provider_user = {sub: s, email: e}`, and an
`access_token` that decodes (at any instant up to expiry) to exactly the
claims `{sub: s, email: e, provider: "google", iss: "ms1-user-service"}` plus
`exp` at issuance instant plus ttl. -/
theorem successful_callback_shape (g : GoogleConfig) (cfg : JwtConfig)
    (now tv : Int) (o : ProviderOracle) (s e : String)
    (hconf : googleConfigured g = true)
    (hsub : dictGet? o.tokenUserinfo "sub" = some (.str s))
    (hemail : dictGet? o.tokenUserinfo "email" = some (.str e))
    (htv : tv ≤ now + (cfg.expireMinutes : Int) * 60) :
    (auth_callback g cfg now o).2 =
      .ok { access_token := create_access_token cfg now
              [("sub", .str s), ("email", .str e),
               ("provider", .str "google"), ("iss", .str "ms1-user-service")]
              none
            token_type := "bearer"
            expires_in_minutes := cfg.expireMinutes
            provider_user := { sub := .str s, email := .str e } } ∧
    decode_access_token cfg tv
        (create_access_token cfg now
          [("sub", .str s), ("email", .str e),
           ("provider", .str "google"), ("iss", .str "ms1-user-service")] none) =
      .ok [("sub", .str s), ("email", .str e), ("provider", .str "google"),
           ("iss", .str "ms1-user-service"),
           ("exp", .int (now + (cfg.expireMinutes : Int) * 60))] := by
  have hsome : (dictGet? o.tokenUserinfo "sub").isSome := by rw [hsub]; rfl
  have hne : o.tokenUserinfo.isEmpty = false :=
    dictGet?_isEmpty_false _ _ hsome
  have heff : effectiveUserinfo o = o.tokenUserinfo := by
    unfold effectiveUserinfo
    rw [hne]
    rfl
  constructor
  · unfold auth_callback
    rw [hconf]
    simp [hne, heff, hsub, hemail]
  · have hd : decode_access_token cfg tv
        (create_access_token cfg now
          [("sub", ClaimValue.str s), ("email", .str e),
           ("provider", .str "google"), ("iss", .str "ms1-user-service")] none) =
        .ok (dictInsert
          [("sub", ClaimValue.str s), ("email", .str e),
           ("provider", .str "google"), ("iss", .str "ms1-user-service")]
          "exp" (.int (now + timedeltaOr none cfg.expireMinutes))) :=
      decode_create_ok cfg _ now tv none htv
    rw [hd]
    rfl

/-- Witness for C9 at a concrete configured client, oracle and instants. -/
theorem successful_callback_shape_witness :
    (googleConfigured gEx = true ∧
      dictGet? dataEx "sub" = some (.str "user-1") ∧
      dictGet? dataEx "email" = some (.str "a@b.com") ∧
      (3600 : Int) ≤ 0 + (cfgEx.expireMinutes : Int) * 60) ∧
    ((auth_callback gEx cfgEx 0 ⟨dataEx, []⟩).2 =
        .ok { access_token := create_access_token cfgEx 0
                [("sub", .str "user-1"), ("email", .str "a@b.com"),
                 ("provider", .str "google"), ("iss", .str "ms1-user-service")]
                none
              token_type := "bearer"
              expires_in_minutes := cfgEx.expireMinutes
              provider_user := { sub := .str "user-1", email := .str "a@b.com" } } ∧
      decode_access_token cfgEx 3600
          (create_access_token cfgEx 0
            [("sub", .str "user-1"), ("email", .str "a@b.com"),
             ("provider", .str "google"), ("iss", .str "ms1-user-service")] none) =
        .ok [("sub", .str "user-1"), ("email", .str "a@b.com"),
             ("provider", .str "google"), ("iss", .str "ms1-user-service"),
             ("exp", .int (0 + (cfgEx.expireMinutes : Int) * 60))]) :=
  ⟨⟨by decide, by decide, by decide, by decide⟩,
   successful_callback_shape gEx cfgEx 0 3600 ⟨dataEx, []⟩ "user-1" "a@b.com"
     (by decide) (by decide) (by decide) (by decide)⟩

/-- C10: `create_access_token` never mutates the caller's dict. In the heap
model of `data.copy()` and `to_encode.update`, the dict object passed in is
unchanged after the call, and the token minted equals the pure
`create_access_token` on the dict's entries. -/
theorem create_heap_frame (cfg : JwtConfig) (now : Int) (st : Store)
    (dataRef : Nat) (expires_delta : Option Int) (h : dataRef < st.length) :
    storeRead (create_access_token_heap cfg now st dataRef expires_delta).1
        dataRef = storeRead st dataRef ∧
    (create_access_token_heap cfg now st dataRef expires_delta).2 =
      create_access_token cfg now (storeRead st dataRef) expires_delta := by
  unfold create_access_token_heap storeCopy storeUpdate
  dsimp only
  have hx : storeRead (st ++ [storeRead st dataRef]) st.length =
      storeRead st dataRef := by
    unfold storeRead
    rw [List.getD_eq_getElem?_getD, List.getElem?_concat_length]
    rfl
  constructor
  · unfold storeRead
    rw [List.getD_eq_getElem?_getD,
      List.getElem?_set_ne (by omega : st.length ≠ dataRef),
      List.getElem?_append_left h, ← List.getD_eq_getElem?_getD]
  · rw [hx]
    have hy : storeRead
        ((st ++ [storeRead st dataRef]).set st.length
          (dictInsert (storeRead st dataRef) "exp"
            (.int (now + timedeltaOr expires_delta cfg.expireMinutes))))
        st.length =
        dictInsert (storeRead st dataRef) "exp"
          (.int (now + timedeltaOr expires_delta cfg.expireMinutes)) := by
      unfold storeRead
      rw [List.getD_eq_getElem?_getD,
        List.getElem?_set_self
          (by simp : st.length < (st ++ [List.getD st dataRef []]).length)]
      rfl
    rw [hy, create_access_token_eq]

/-- Witness for C10 on a one-object heap. -/
theorem create_heap_frame_witness :
    0 < ([dataEx] : Store).length ∧
    (storeRead (create_access_token_heap cfgEx 0 [dataEx] 0 none).1 0 =
        storeRead [dataEx] 0 ∧
      (create_access_token_heap cfgEx 0 [dataEx] 0 none).2 =
        create_access_token cfgEx 0 (storeRead [dataEx] 0) none) :=
  ⟨by decide, create_heap_frame cfgEx 0 [dataEx] 0 none (by decide)⟩

end MS1Auth
